import Mathlib

/-!
# Verification of the `extend-vscode` performance-benchmarking harness

Shallow embedding of the performance test harness:
* `src/test/performance/profiler.ts` (data model: `PerformanceMetrics`,
  `PerformanceBenchmark`, `PerformanceThresholds`, `measureAsync`),
* `src/test/performance/test-utils.ts` (`PerformanceTestRunner.runTest`,
  `isWithinThresholds`),
* `src/test/performance/regression-detector.ts`
  (`PerformanceRegressionDetector`: `storeHistoricalData`/`cleanupOldData`,
  `analyzeRegression`, `performRegressionAnalysis`, `calculateSeverity`),
* `src/test/performance/reporter.ts` (`PerformanceReporter.isWithinThresholds`).

JavaScript numbers are modelled as rationals (`ℚ`); the claims under
verification stay away from NaN/Infinity edge cases except where noted
(division by zero in `ℚ` yields `0`, while in JS it yields `±Infinity`;
whenever that matters it is called out at the theorem).  Optional fields
(`cpuUsage?`, threshold fields) are `Option`s, matching the source's
presence/absence semantics.  File-system effects are modelled by explicit
state passing; wall-clock reads (`Date.now()`) by explicit clock parameters.
-/

namespace ExtendVscode

/-- Structure `PerformanceThresholds` from `profiler.ts`: all fields optional; an absent
field means "no ceiling on that dimension". -/

structure PerformanceThresholds where
  maxDuration : Option ℚ
  maxMemoryDelta : Option ℚ
  maxCpuUsage : Option ℚ
  deriving DecidableEq, Repr

/-- The benchmark metadata keys actually written by the harness
(`test-utils.ts`):  `iteration`, `totalIterations`, and -- only on the
degraded benchmark synthesized in the `catch` branch of `runTest` -- an
`error` message. -/

structure BenchMetadata where
  iteration : Nat
  totalIterations : Nat
  error : Option String
  deriving DecidableEq, Repr

/-- Structure `PerformanceMetrics` from `profiler.ts`. -/
structure PerformanceMetrics where
  duration : ℚ
  memoryBefore : ℚ
  memoryAfter : ℚ
  memoryDelta : ℚ
  cpuUsage : Option ℚ
  timestamp : Nat
  metadata : Option BenchMetadata
  deriving DecidableEq, Repr

/-- Structure `PerformanceBenchmark` from `profiler.ts`. -/
structure PerformanceBenchmark where
  name : String
  metrics : PerformanceMetrics
  thresholds : Option PerformanceThresholds
  deriving DecidableEq, Repr

/-! ## Threshold checking

`PerformanceTestRunner.isWithinThresholds` (`test-utils.ts`) and
`PerformanceReporter.isWithinThresholds` (`reporter.ts`) are two textually
identical private methods; both are embedded, one per namespace, so that
claims about either can name its own definition. -/

namespace TestRunner

/-- Method `PerformanceTestRunner.isWithinThresholds` (`test-utils.ts`): a missing
`thresholds` object passes; each present ceiling fails the benchmark only on
strict exceedance (`>`); the CPU ceiling is only consulted when the metric
`cpuUsage` is itself present. -/
def isWithinThresholds (b : PerformanceBenchmark) : Bool :=
  match b.thresholds with
  | none => true
  | some t =>
    if (match t.maxDuration with
        | some md => decide (b.metrics.duration > md)
        | none => false) then false
    else if (match t.maxMemoryDelta with
        | some mm => decide (b.metrics.memoryDelta > mm)
        | none => false) then false
    else if (match t.maxCpuUsage, b.metrics.cpuUsage with
        | some mc, some cu => decide (cu > mc)
        | _, _ => false) then false
    else true

end TestRunner

namespace Reporter

/-- Method `PerformanceReporter.isWithinThresholds` (`reporter.ts`), textually
identical to the test runner's copy. -/
def isWithinThresholds (b : PerformanceBenchmark) : Bool :=
  match b.thresholds with
  | none => true
  | some t =>
    if (match t.maxDuration with
        | some md => decide (b.metrics.duration > md)
        | none => false) then false
    else if (match t.maxMemoryDelta with
        | some mm => decide (b.metrics.memoryDelta > mm)
        | none => false) then false
    else if (match t.maxCpuUsage, b.metrics.cpuUsage with
        | some mc, some cu => decide (cu > mc)
        | _, _ => false) then false
    else true

end Reporter

/-- The "within thresholds" property as a predicate: no present ceiling is
strictly exceeded (equality at a ceiling passes; a benchmark with no
`cpuUsage` metric never fails the CPU ceiling). -/

def WithinSpec (b : PerformanceBenchmark) : Prop :=
  ∀ t ∈ b.thresholds,
    (∀ md ∈ t.maxDuration, b.metrics.duration ≤ md) ∧
    (∀ mm ∈ t.maxMemoryDelta, b.metrics.memoryDelta ≤ mm) ∧
    (∀ mc ∈ t.maxCpuUsage, ∀ cu ∈ b.metrics.cpuUsage, cu ≤ mc)

instance (b : PerformanceBenchmark) : Decidable (WithinSpec b) := by
  unfold WithinSpec; infer_instance

/-! ## Regression detector (`regression-detector.ts`) -/

/-- The five severity levels, ordered `none < minor < moderate < major <
critical`. -/

inductive Severity where
  | none
  | minor
  | moderate
  | major
  | critical
  deriving DecidableEq, Repr

/-- Numeric rank of a severity, following the source's `severityOrder`
array (index in `['none', 'minor', 'moderate', 'major', 'critical']`). -/

def Severity.rank : Severity → Nat
  | .none => 0
  | .minor => 1
  | .moderate => 2
  | .major => 3
  | .critical => 4

/-- One per-dimension threshold table (the four tier cutoffs). -/
structure TierThresholds where
  minor : ℚ
  moderate : ℚ
  major : ℚ
  critical : ℚ
  deriving DecidableEq, Repr

/-- The `thresholds` part of `RegressionDetectorConfig`. -/
structure RegressionThresholds where
  duration : TierThresholds
  memory : TierThresholds
  cpu : TierThresholds
  deriving DecidableEq, Repr

/-- Structure `RegressionDetectorConfig` (the `historyDir` path only names the storage
location on disk and plays no role in the logic). -/

structure RegressionDetectorConfig where
  historyDir : String
  maxHistoryCount : Nat
  thresholds : RegressionThresholds
  minSamples : Nat
  deriving DecidableEq, Repr

/-- The defaults installed by the `PerformanceRegressionDetector`
constructor. -/

def defaultRegressionConfig : RegressionDetectorConfig where
  historyDir := "./test-results/performance/history"
  maxHistoryCount := 50
  thresholds :=
    { duration := { minor := 5, moderate := 15, major := 30, critical := 50 }
      memory := { minor := 10, moderate := 25, major := 50, critical := 100 }
      cpu := { minor := 10, moderate := 20, major := 40, critical := 60 } }
  minSamples := 3

/-- The source's guard `typeof cpuRegression === 'number' && cpuRegression >=
limit`: false when the CPU regression is absent. -/

def cpuAtLeast (cpuRegression : Option ℚ) (limit : ℚ) : Bool :=
  match cpuRegression with
  | some c => decide (c ≥ limit)
  | none => false

/-- The `const maxRegression = Math.max(durationRegression,
memoryRegression, cpuRegression ?? 0)` binding at the top of
`calculateSeverity`. -/

def maxRegression (durationRegression memoryRegression : ℚ)
    (cpuRegression : Option ℚ) : ℚ :=
  max durationRegression (max memoryRegression (cpuRegression.getD 0))

/-- Function `calculateSeverity` from `regression-detector.ts`.  Note that the first
disjunct of every tier test compares `maxRegression` -- the maximum across
all dimensions -- against the **duration** threshold table. -/

def calculateSeverity (th : RegressionThresholds)
    (durationRegression memoryRegression : ℚ) (cpuRegression : Option ℚ) :
    Severity :=
  if maxRegression durationRegression memoryRegression cpuRegression ≥
       th.duration.critical ∨
     memoryRegression ≥ th.memory.critical ∨
     cpuAtLeast cpuRegression th.cpu.critical = true then .critical
  else if maxRegression durationRegression memoryRegression cpuRegression ≥
       th.duration.major ∨
     memoryRegression ≥ th.memory.major ∨
     cpuAtLeast cpuRegression th.cpu.major = true then .major
  else if maxRegression durationRegression memoryRegression cpuRegression ≥
       th.duration.moderate ∨
     memoryRegression ≥ th.memory.moderate ∨
     cpuAtLeast cpuRegression th.cpu.moderate = true then .moderate
  else if maxRegression durationRegression memoryRegression cpuRegression ≥
       th.duration.minor ∨
     memoryRegression ≥ th.memory.minor ∨
     cpuAtLeast cpuRegression th.cpu.minor = true then .minor
  else .none

/-- Function `calculateAverage`: `values.reduce((sum, val) => sum + val, 0) /
values.length`.  (On the empty list JS yields `0/0 = NaN`; in `ℚ` this is
`0`.  Every use in the claims has a non-empty list.) -/

def calculateAverage (values : List ℚ) : ℚ :=
  values.sum / values.length

/-- The `current` sub-object of a `RegressionAnalysis`. -/
structure CurrentMetrics where
  duration : ℚ
  memoryDelta : ℚ
  cpuUsage : Option ℚ
  deriving DecidableEq, Repr

/-- The `baseline` sub-object of a `RegressionAnalysis` (mean of the
historical samples). -/

structure BaselineMetrics where
  duration : ℚ
  memoryDelta : ℚ
  cpuUsage : Option ℚ
  sampleCount : Nat
  deriving DecidableEq, Repr

/-- The `regression` sub-object of a `RegressionAnalysis`. -/
structure RegressionResult where
  detected : Bool
  durationRegression : ℚ
  memoryRegression : ℚ
  cpuRegression : Option ℚ
  severity : Severity
  deriving DecidableEq, Repr

/-- Structure `RegressionAnalysis` from `regression-detector.ts`. -/
structure RegressionAnalysis where
  benchmarkName : String
  current : CurrentMetrics
  baseline : BaselineMetrics
  regression : RegressionResult
  deriving DecidableEq, Repr

/-- Function `performRegressionAnalysis` from `regression-detector.ts`.  The memory
divisor mirrors `Math.abs(baseline.memoryDelta || 1)`: the JS `||` replaces a
zero baseline by `1` before taking the absolute value. -/

def performRegressionAnalysis (th : RegressionThresholds)
    (current : PerformanceBenchmark) (historical : List PerformanceBenchmark) :
    RegressionAnalysis :=
  let historicalDurations := historical.map (fun b => b.metrics.duration)
  let historicalMemoryDeltas := historical.map (fun b => b.metrics.memoryDelta)
  let historicalCpuUsages := historical.filterMap (fun b => b.metrics.cpuUsage)
  let baseline : BaselineMetrics :=
    { duration := calculateAverage historicalDurations
      memoryDelta := calculateAverage historicalMemoryDeltas
      cpuUsage :=
        if historicalCpuUsages.length > 0 then
          some (calculateAverage historicalCpuUsages)
        else none
      sampleCount := historical.length }
  let durationRegression :=
    ((current.metrics.duration - baseline.duration) / baseline.duration) * 100
  let memoryRegression :=
    ((current.metrics.memoryDelta - baseline.memoryDelta) /
      |if baseline.memoryDelta = 0 then 1 else baseline.memoryDelta|) * 100
  let cpuRegression :=
    match baseline.cpuUsage, current.metrics.cpuUsage with
    | some bc, some cc => some (((cc - bc) / bc) * 100)
    | _, _ => none
  let severity := calculateSeverity th durationRegression memoryRegression
    cpuRegression
  let detected := severity ≠ Severity.none
  { benchmarkName := current.name
    current :=
      { duration := current.metrics.duration
        memoryDelta := current.metrics.memoryDelta
        cpuUsage := current.metrics.cpuUsage }
    baseline
    regression :=
      { detected := detected
        durationRegression
        memoryRegression
        cpuRegression
        severity } }

/-- The `platform` sub-object of `HistoricalData`. -/
structure PlatformInfo where
  os : String
  arch : String
  nodeVersion : String
  deriving DecidableEq, Repr

/-- Structure `HistoricalData` from `regression-detector.ts`: one persisted run. -/
structure HistoricalData where
  timestamp : Nat
  commitHash : Option String
  vsCodeVersion : Option String
  extensionVersion : Option String
  platform : PlatformInfo
  benchmarks : List PerformanceBenchmark
  deriving DecidableEq, Repr

/-- Function `getHistoricalBenchmarks`: all stored benchmarks whose name matches. -/
def getHistoricalBenchmarks (historicalData : List HistoricalData)
    (benchmarkName : String) : List PerformanceBenchmark :=
  historicalData.flatMap (fun data =>
    data.benchmarks.filter (fun b => b.name == benchmarkName))

/-- Function `getWorstSeverity`: walk `severityOrder` from `critical` down and return
the first level present among the analyses (the empty list yields `none`). -/

def getWorstSeverity (analyses : List RegressionAnalysis) : Severity :=
  let severities := analyses.map (fun a => a.regression.severity)
  if severities.contains Severity.critical then .critical
  else if severities.contains Severity.major then .major
  else if severities.contains Severity.moderate then .moderate
  else if severities.contains Severity.minor then .minor
  else .none

/-- Function `generateSummary` (emoji prefixes elided; the text is not under any
claim). -/

def generateSummary (totalBenchmarks regressionsDetected : Nat)
    (worstSeverity : Severity) : String :=
  if regressionsDetected = 0 then
    "No performance regressions detected in " ++ toString totalBenchmarks ++
      " benchmarks"
  else
    toString regressionsDetected ++ "/" ++ toString totalBenchmarks ++
      " benchmarks show " ++ reprStr worstSeverity ++ " performance regression"

/-- The `overall` sub-object of a `RegressionReport`. -/
structure OverallAssessment where
  hasRegressions : Bool
  worstSeverity : Severity
  summary : String
  deriving DecidableEq, Repr

/-- Structure `RegressionReport` from `regression-detector.ts`. -/
structure RegressionReport where
  analysisTimestamp : Nat
  totalBenchmarks : Nat
  regressionsDetected : Nat
  analyses : List RegressionAnalysis
  overall : OverallAssessment
  deriving DecidableEq, Repr

/-- Function `analyzeRegression` from `regression-detector.ts`.  The already-loaded
historical records stand in for `loadHistoricalData()` (file I/O made
explicit); `now` stands in for `Date.now()`.  A current benchmark whose
matching history is shorter than `minSamples` is skipped (`continue`). -/

def analyzeRegression (cfg : RegressionDetectorConfig) (now : Nat)
    (historicalData : List HistoricalData)
    (currentBenchmarks : List PerformanceBenchmark) : RegressionReport :=
  let analyses := currentBenchmarks.filterMap (fun currentBenchmark =>
    let historicalBenchmarks :=
      getHistoricalBenchmarks historicalData currentBenchmark.name
    if historicalBenchmarks.length < cfg.minSamples then none
    else some (performRegressionAnalysis cfg.thresholds currentBenchmark
      historicalBenchmarks))
  let regressionsDetected :=
    (analyses.filter (fun a => a.regression.detected)).length
  let worstSeverity := getWorstSeverity analyses
  { analysisTimestamp := now
    totalBenchmarks := analyses.length
    regressionsDetected
    analyses
    overall :=
      { hasRegressions := regressionsDetected > 0
        worstSeverity
        summary := generateSummary analyses.length regressionsDetected
          worstSeverity } }

/-! ## Historical store (`storeHistoricalData` / `cleanupOldData`)

The on-disk history directory is modelled as a list of
(timestamp, record) pairs, one per `performance-<timestamp>.json` file.
`Date.now()` millisecond timestamps all have the same digit count (13 digits
through the year 2286), so the lexicographic filename sort performed by
`cleanupOldData` coincides with the numeric order of the embedded timestamps;
keys are therefore modelled as `Nat` with numeric comparison. -/

/-- The `platform` object of a `PerformanceReport` (from `profiler.ts`). -/
structure ReportPlatform where
  os : String
  arch : String
  nodeVersion : String
  vsCodeVersion : String
  deriving DecidableEq, Repr

/-- Structure `PerformanceReport` from `profiler.ts`, restricted to the fields
`storeHistoricalData` reads (`platform` and `benchmarks`; `runId`, the time
span and the summary block are never consulted by the store). -/

structure PerformanceReport where
  runId : String
  startTime : Nat
  endTime : Nat
  platform : ReportPlatform
  benchmarks : List PerformanceBenchmark
  deriving DecidableEq, Repr

/-- One history directory: the files it holds, each keyed by the timestamp
embedded in its name. -/

abbrev HistoryStore := List (Nat × HistoricalData)

/-- The `HistoricalData` object assembled by `storeHistoricalData` (the
`extensionVersion` is hard-coded `'unknown'` in the source; `commitHash` is
the best-effort `git rev-parse HEAD` result, passed in explicitly here). -/

def mkHistoricalData (now : Nat) (commitHash : Option String)
    (report : PerformanceReport) : HistoricalData :=
  { timestamp := now
    commitHash
    vsCodeVersion := some report.platform.vsCodeVersion
    extensionVersion := some "unknown"
    platform :=
      { os := report.platform.os
        arch := report.platform.arch
        nodeVersion := report.platform.nodeVersion }
    benchmarks := report.benchmarks }

/-- Insertion step of the descending sort on timestamps. -/
def insertDesc (x : Nat × HistoricalData) : HistoryStore → HistoryStore
  | [] => [x]
  | y :: ys => if x.1 ≥ y.1 then x :: y :: ys else y :: insertDesc x ys

/-- The expression `files.sort().reverse()`: the directory listing sorted newest-first.  The
sort algorithm itself is irrelevant (the result is unique for distinct
timestamps); insertion sort is used here. -/

def sortByTimestampDesc : HistoryStore → HistoryStore
  | [] => []
  | x :: xs => insertDesc x (sortByTimestampDesc xs)

/-- Function `cleanupOldData`: when more than `maxHistoryCount` files exist, keep the
`maxHistoryCount` newest and delete (`unlink`) the rest; otherwise leave the
directory untouched. -/

def cleanupOldData (maxHistoryCount : Nat) (files : HistoryStore) :
    HistoryStore :=
  if files.length > maxHistoryCount then
    (sortByTimestampDesc files).take maxHistoryCount
  else files

/-- Function `storeHistoricalData`: write `performance-<now>.json` holding the new
record, then run `cleanupOldData`. -/

def storeHistoricalData (cfg : RegressionDetectorConfig) (now : Nat)
    (commitHash : Option String) (report : PerformanceReport)
    (store : HistoryStore) : HistoryStore :=
  cleanupOldData cfg.maxHistoryCount
    ((now, mkHistoricalData now commitHash report) :: store)

/-! ## Benchmark runner (`PerformanceTestRunner.runTest`, `test-utils.ts`)

`profiler.measureAsync` is the sampler: it either returns measured raw
quantities or lets the operation's exception propagate.  A run of `runTest`
is therefore determined by (a) the per-iteration sampler outcome and (b) the
`Date.now()` reading taken in the `catch` branch; both are explicit
parameters.  The `setup`/`cleanup` hooks only produce external effects and
are not modelled (no claim concerns them). -/

/-- Structure `PerformanceTestConfig` from `test-utils.ts` (hooks omitted, see above).
The optional boolean flags are consulted by truthiness, so they are plain
`Bool`s with `false` for "absent". -/

structure PerformanceTestConfig where
  name : String
  iterations : Option Nat
  thresholds : Option PerformanceThresholds
  collectCpuMetrics : Bool
  collectMemoryMetrics : Bool
  deriving DecidableEq, Repr

/-- What `measureAsync` observes for one successful operation: wall-clock
duration, the two heap probes, the polled CPU samples, and the `Date.now()`
reading. -/

structure RawMeasurement where
  duration : ℚ
  memoryBefore : ℚ
  memoryAfter : ℚ
  cpuSamples : List ℚ
  timestamp : Nat
  deriving DecidableEq, Repr

/-- The benchmark `measureAsync` returns for iteration `i` (0-based), after
`runTest` has attached its metadata: `memoryDelta = memoryAfter -
memoryBefore`; `cpuUsage` is the mean of the polled samples, absent when no
sample was collected (in particular whenever CPU collection is off). -/

def measuredBenchmark (cfg : PerformanceTestConfig) (iterations i : Nat)
    (m : RawMeasurement) : PerformanceBenchmark :=
  let cpuSamples := if cfg.collectCpuMetrics then m.cpuSamples else []
  { name := cfg.name ++ "-iteration-" ++ toString (i + 1)
    metrics :=
      { duration := m.duration
        memoryBefore := m.memoryBefore
        memoryAfter := m.memoryAfter
        memoryDelta := m.memoryAfter - m.memoryBefore
        cpuUsage :=
          if cpuSamples.length > 0 then some (calculateAverage cpuSamples)
          else none
        timestamp := m.timestamp
        metadata :=
          some { iteration := i + 1, totalIterations := iterations
                 error := none } }
    thresholds := none }

/-- The degraded benchmark synthesized in the `catch` branch of `runTest` for
iteration `i` (0-based): all measured metrics zero (including `cpuUsage: 0`),
the error message in the metadata, the configured thresholds attached. -/

def errorBenchmark (cfg : PerformanceTestConfig) (iterations i : Nat)
    (now : Nat) (errMsg : String) : PerformanceBenchmark :=
  { name := cfg.name ++ "-iteration-" ++ toString (i + 1)
    metrics :=
      { duration := 0
        memoryBefore := 0
        memoryAfter := 0
        memoryDelta := 0
        cpuUsage := some 0
        timestamp := now
        metadata :=
          some { iteration := i + 1, totalIterations := iterations
                 error := some errMsg } }
    thresholds := cfg.thresholds }

/-- Per-iteration sampler outcome: the raw measurement, or the message of the
exception the operation threw. -/

abbrev Sampler := Nat → Except String RawMeasurement

/-- The value `Math.min(...list)` over a non-empty list (the empty case, JS `Infinity`,
is unrepresentable in `ℚ` and unreached by every claim: they all have at
least one iteration). -/

def listMin : List ℚ → ℚ
  | [] => 0
  | x :: xs => xs.foldl min x

/-- The value `Math.max(...list)` over a non-empty list (empty case as in `listMin`). -/
def listMax : List ℚ → ℚ
  | [] => 0
  | x :: xs => xs.foldl max x

/-- The `summary` block of a `PerformanceTestResult`.  The source stores
`standardDeviation = Math.sqrt(variance)`, an irrational number in general;
the summary here records the `variance` it is the square root of (no claim
mentions the standard deviation). -/

structure TestSummary where
  averageDuration : ℚ
  minDuration : ℚ
  maxDuration : ℚ
  variance : ℚ
  passedIterations : Nat
  failedIterations : Nat
  averageMemoryDelta : ℚ
  averageCpuUsage : Option ℚ
  deriving DecidableEq, Repr

/-- Structure `PerformanceTestResult` from `test-utils.ts`. -/
structure PerformanceTestResult where
  config : PerformanceTestConfig
  benchmarks : List PerformanceBenchmark
  summary : TestSummary
  passed : Bool
  deriving DecidableEq, Repr

/-- The loop body of `runTest` for iteration `i` (0-based): the benchmark
appended to `benchmarks`, plus the `console.warn` message when the sampler
threw.  In the success case the configured thresholds are attached only when
present (`if (config.thresholds) benchmark.thresholds = config.thresholds`). -/

def runIteration (sampler : Sampler) (clock : Nat → Nat)
    (cfg : PerformanceTestConfig) (iterations i : Nat) :
    PerformanceBenchmark × Option String :=
  match sampler i with
  | .ok m =>
      let benchmark := measuredBenchmark cfg iterations i m
      let benchmark :=
        match cfg.thresholds with
        | some _ => { benchmark with thresholds := cfg.thresholds }
        | none => benchmark
      (benchmark, (none : Option String))
  | .error msg =>
      (errorBenchmark cfg iterations i (clock i) msg,
       some ("Performance test iteration " ++ toString (i + 1) ++
         " failed: " ++ msg))

/-- Method `PerformanceTestRunner.runTest`, together with the `console.warn`
messages it emits (one per caught iteration error).  `clock i` is the
`Date.now()` reading in iteration `i`'s `catch` branch. -/

def runTestResult (sampler : Sampler) (clock : Nat → Nat)
    (cfg : PerformanceTestConfig) : PerformanceTestResult × List String :=
  let iterations := cfg.iterations.getD 1
  let steps :=
    (List.range iterations).map (runIteration sampler clock cfg iterations)
  let benchmarks := steps.map Prod.fst
  let warnings := steps.filterMap Prod.snd
  let durations := benchmarks.map (fun b => b.metrics.duration)
  let memoryDeltas := benchmarks.map (fun b => b.metrics.memoryDelta)
  let cpuUsages := benchmarks.filterMap (fun b => b.metrics.cpuUsage)
  let averageDuration := durations.sum / durations.length
  let variance :=
    (durations.map (fun d => (d - averageDuration) ^ (2 : ℕ))).sum /
      durations.length
  let passedIterations :=
    (benchmarks.filter (fun b => TestRunner.isWithinThresholds b)).length
  let failedIterations := benchmarks.length - passedIterations
  let passed := cfg.thresholds.isNone || failedIterations == 0
  ({ config := cfg
     benchmarks
     summary :=
       { averageDuration
         minDuration := listMin durations
         maxDuration := listMax durations
         variance
         passedIterations
         failedIterations
         averageMemoryDelta := memoryDeltas.sum / memoryDeltas.length
         averageCpuUsage :=
           if cpuUsages.length > 0 then
             some (cpuUsages.sum / cpuUsages.length)
           else none }
     passed }, warnings)

/-- The `runTest` return value (the warnings dropped). -/
def runTest (sampler : Sampler) (clock : Nat → Nat)
    (cfg : PerformanceTestConfig) : PerformanceTestResult :=
  (runTestResult sampler clock cfg).1

/-- The data-model invariant on thresholds: every present ceiling is
positive. -/

def ThresholdsPositive (t : PerformanceThresholds) : Prop :=
  (∀ x ∈ t.maxDuration, 0 < x) ∧ (∀ x ∈ t.maxMemoryDelta, 0 < x) ∧
    (∀ x ∈ t.maxCpuUsage, 0 < x)

/-- A minimal concrete benchmark used by witnesses (no thresholds, no CPU
metric). -/

def wBench (name : String) (d : ℚ) : PerformanceBenchmark :=
  ⟨name, ⟨d, 0, 0, 0, none, 0, none⟩, none⟩

/-- A minimal concrete historical record used by witnesses. -/
def wRecord (ts : Nat) (bs : List PerformanceBenchmark) : HistoricalData :=
  ⟨ts, none, none, none, ⟨"linux", "x64", "v20"⟩, bs⟩

/-! ### The historical store never exceeds its budget (C5) -/

/-- Newest-first order on the history directory listing. -/
def SortedDesc (l : HistoryStore) : Prop :=
  l.Pairwise (fun a b => b.1 ≤ a.1)

/-- One run to be recorded: the `Date.now()` timestamp, the best-effort
commit hash, and the report. -/

abbrev RunInput := Nat × Option String × PerformanceReport

/-- The on-disk record a run produces. -/
def recordOf (r : RunInput) : Nat × HistoricalData :=
  (r.1, mkHistoricalData r.1 r.2.1 r.2.2)

/-- Recording a sequence of runs one at a time. -/
def storeRuns (cfg : RegressionDetectorConfig) (runs : List RunInput)
    (store : HistoryStore) : HistoryStore :=
  runs.foldl (fun st r => storeHistoricalData cfg r.1 r.2.1 r.2.2 st) store

/-- A minimal concrete report used by the C5 witness. -/
def wReport : PerformanceReport :=
  ⟨"r", 0, 0, ⟨"linux", "x64", "v20", "unknown"⟩, []⟩

/-- A budget-2 detector configuration for the C5 witness. -/
def wCfg5 : RegressionDetectorConfig :=
  { historyDir := "h", maxHistoryCount := 2
    thresholds := defaultRegressionConfig.thresholds, minSamples := 3 }

/-! ### Severity classification (C1)

The spec asserts independent per-dimension threshold tables.  The defs
below (`specTier`, `specSeverityMax`, `specCpuTier`, `calculateSeveritySpec`)
are modelled from the spec's words (§4.4) for comparison with the source's
`calculateSeverity`. -/

/-- Modelled from the spec: the tier a single dimension's percentage
triggers in its own threshold table. -/

def specTier (t : TierThresholds) (x : ℚ) : Severity :=
  if x ≥ t.critical then .critical
  else if x ≥ t.major then .major
  else if x ≥ t.moderate then .moderate
  else if x ≥ t.minor then .minor
  else .none

/-- Modelled from the spec: the worse of two severities. -/
def specSeverityMax (a b : Severity) : Severity :=
  if b.rank ≤ a.rank then a else b

/-- Modelled from the spec: the CPU dimension's tier (no CPU percentage
means no contribution). -/

def specCpuTier (th : RegressionThresholds) (c : Option ℚ) : Severity :=
  match c with
  | some cv => specTier th.cpu cv
  | none => Severity.none

/-- Modelled from the spec (§4.4): "Classify severity using independent
threshold tables per dimension ... the overall severity for a benchmark is
the worst tier triggered by any dimension." -/

def calculateSeveritySpec (th : RegressionThresholds) (dur mem : ℚ)
    (c : Option ℚ) : Severity :=
  specSeverityMax (specTier th.duration dur)
    (specSeverityMax (specTier th.memory mem) (specCpuTier th c))

/-! ### Concrete regression scenarios (C2, C7) -/

/-- A concrete benchmark with a prescribed memory delta, used by the C7
scenarios. -/

def wBenchM (name : String) (d md : ℚ) : PerformanceBenchmark :=
  ⟨name, ⟨d, 0, 0, md, none, 0, none⟩, none⟩

/-! ## Helper lemmas -/

/-- Characterization of the test runner's threshold check. -/
theorem testRunner_isWithinThresholds_iff (b : PerformanceBenchmark) :
    TestRunner.isWithinThresholds b = true ↔ WithinSpec b := by
  rcases b with ⟨name, metrics, thresholds⟩
  cases thresholds with
  | none =>
      simp [TestRunner.isWithinThresholds, WithinSpec]
  | some t =>
      rcases t with ⟨md, mm, mc⟩
      cases md <;> cases mm <;> cases mc <;>
        cases hcpu : metrics.cpuUsage <;>
          simp [TestRunner.isWithinThresholds, WithinSpec, hcpu, not_lt]

/-- The reporter's copy of the check is the same function. -/
theorem reporter_isWithinThresholds_eq :
    Reporter.isWithinThresholds = TestRunner.isWithinThresholds := rfl

/-- The benchmarks list produced by `runTest`: one entry per iteration. -/
theorem runTest_benchmarks (s : Sampler) (c : Nat → Nat)
    (cfg : PerformanceTestConfig) :
    (runTest s c cfg).benchmarks =
      (List.range (cfg.iterations.getD 1)).map
        (fun i => (runIteration s c cfg (cfg.iterations.getD 1) i).1) := by
  simp [runTest, runTestResult]

/-- The `passed` flag as computed by `runTest`. -/
theorem runTest_passed_eq (s : Sampler) (c : Nat → Nat)
    (cfg : PerformanceTestConfig) :
    (runTest s c cfg).passed =
      (cfg.thresholds.isNone ||
        (runTest s c cfg).summary.failedIterations == 0) := rfl

/-- Field `failedIterations` counts the iterations whose benchmark is not within
its thresholds. -/
theorem runTest_failedIterations (s : Sampler) (c : Nat → Nat)
    (cfg : PerformanceTestConfig) :
    (runTest s c cfg).summary.failedIterations =
      (runTest s c cfg).benchmarks.length -
        ((runTest s c cfg).benchmarks.filter
          (fun b => TestRunner.isWithinThresholds b)).length := rfl

/-! ## Claim theorems -/
/-- C9: Threshold comparison is strict at the boundary in both
`PerformanceTestRunner.isWithinThresholds` and
`PerformanceReporter.isWithinThresholds`: a benchmark passes if and only if
no present ceiling is strictly exceeded, so exact equality with
`maxDuration`, `maxMemoryDelta` or `maxCpuUsage` passes, and a benchmark
with no `cpuUsage` metric never fails a `maxCpuUsage` ceiling. -/
theorem claim_C9_threshold_boundary_strict (b : PerformanceBenchmark) :
    (TestRunner.isWithinThresholds b = true ↔ WithinSpec b) ∧
    (Reporter.isWithinThresholds b = true ↔ WithinSpec b) :=
  ⟨testRunner_isWithinThresholds_iff b, by
    rw [reporter_isWithinThresholds_eq]
    exact testRunner_isWithinThresholds_iff b⟩

/-- C3: for every configuration and sampler behaviour, `runTest` reports
`passed = true` iff the configuration has no thresholds or no iteration
failed its thresholds; in particular, with no thresholds configured, the run
always passes. -/
theorem claim_C3_passed_flag (s : Sampler) (c : Nat → Nat)
    (cfg : PerformanceTestConfig) :
    ((runTest s c cfg).passed = true ↔
      (cfg.thresholds = none ∨
        (runTest s c cfg).summary.failedIterations = 0)) ∧
    (cfg.thresholds = none → (runTest s c cfg).passed = true) := by
  constructor
  · rw [runTest_passed_eq]
    simp [Option.isNone_iff_eq_none]
  · intro h
    rw [runTest_passed_eq, h]
    simp

/-- Witness for C3: a two-iteration configuration without thresholds
passes. -/
theorem claim_C3_passed_flag_witness :
    (runTest (fun _ => Except.ok ⟨1, 0, 0, [], 0⟩) (fun _ => 0)
      ⟨"t", some 2, none, false, true⟩).passed = true :=
  (claim_C3_passed_flag _ _ _).2 rfl

/-- C4: `runTest` runs all `N` configured iterations and returns exactly `N`
benchmarks; an iteration whose operation throws yields a degraded benchmark
with all measured metrics zero and the error message in its metadata, plus a
logged warning, and does not abort the remaining iterations. -/
theorem claim_C4_error_iterations (s : Sampler) (c : Nat → Nat)
    (cfg : PerformanceTestConfig) (N : Nat)
    (hN : cfg.iterations = some N) (_h1 : 1 ≤ N) :
    (runTest s c cfg).benchmarks.length = N ∧
    (∀ i msg, i < N → s i = Except.error msg →
      ∃ b, (runTest s c cfg).benchmarks[i]? = some b ∧
        b.metrics.duration = 0 ∧ b.metrics.memoryBefore = 0 ∧
        b.metrics.memoryAfter = 0 ∧ b.metrics.memoryDelta = 0 ∧
        b.metrics.cpuUsage = some 0 ∧
        (∃ md, b.metrics.metadata = some md ∧ md.error = some msg) ∧
        ("Performance test iteration " ++ toString (i + 1) ++ " failed: " ++
          msg) ∈ (runTestResult s c cfg).2) := by
  have hiter : cfg.iterations.getD 1 = N := by rw [hN]; rfl
  constructor
  · rw [runTest_benchmarks, hiter]; simp
  · intro i msg hi hs
    refine ⟨errorBenchmark cfg N i (c i) msg, ?_, rfl, rfl, rfl, rfl, rfl,
      ⟨_, rfl, rfl⟩, ?_⟩
    · rw [runTest_benchmarks, hiter, List.getElem?_map,
        List.getElem?_range hi]
      simp [runIteration, hs]
    · have hw : (runTestResult s c cfg).2 =
          ((List.range N).map
            (runIteration s c cfg N)).filterMap Prod.snd := by
        simp [runTestResult, hiter]
      rw [hw, List.mem_filterMap]
      exact ⟨runIteration s c cfg N i,
        List.mem_map_of_mem _ (List.mem_range.mpr hi),
        by simp [runIteration, hs]⟩

/-- Witness for C4: three iterations, the middle one throwing. -/
theorem claim_C4_error_iterations_witness :
    (runTest
      (fun i => if i = 1 then Except.error "boom"
                else Except.ok ⟨1, 0, 0, [], 0⟩)
      (fun _ => 7) ⟨"t", some 3, none, false, true⟩).benchmarks.length = 3 ∧
    (∃ b, (runTest
      (fun i => if i = 1 then Except.error "boom"
                else Except.ok ⟨1, 0, 0, [], 0⟩)
      (fun _ => 7) ⟨"t", some 3, none, false, true⟩).benchmarks[1]? = some b ∧
        b.metrics.duration = 0 ∧ b.metrics.memoryBefore = 0 ∧
        b.metrics.memoryAfter = 0 ∧ b.metrics.memoryDelta = 0 ∧
        b.metrics.cpuUsage = some 0 ∧
        (∃ md, b.metrics.metadata = some md ∧ md.error = some "boom") ∧
        ("Performance test iteration " ++ toString (1 + 1) ++ " failed: " ++
          "boom") ∈ (runTestResult
            (fun i => if i = 1 then Except.error "boom"
                      else Except.ok ⟨1, 0, 0, [], 0⟩)
            (fun _ => 7) ⟨"t", some 3, none, false, true⟩).2) := by
  have h := claim_C4_error_iterations
    (fun i => if i = 1 then Except.error "boom"
              else Except.ok ⟨1, 0, 0, [], 0⟩)
    (fun _ => 7) ⟨"t", some 3, none, false, true⟩ 3 rfl (by decide)
  exact ⟨h.1, h.2 1 "boom" (by decide) rfl⟩

/-- A degraded (error-iteration) benchmark satisfies every positive
ceiling: its metrics are all zero and the check is strict. -/
theorem errorBenchmark_withinThresholds (cfg : PerformanceTestConfig)
    (t : PerformanceThresholds) (N i now : Nat) (msg : String)
    (ht : cfg.thresholds = some t) (hpos : ThresholdsPositive t) :
    TestRunner.isWithinThresholds (errorBenchmark cfg N i now msg) = true := by
  rw [testRunner_isWithinThresholds_iff]
  intro t' ht'
  have hth : (errorBenchmark cfg N i now msg).thresholds = some t := by
    simp [errorBenchmark, ht]
  rw [hth, Option.mem_def, Option.some_inj] at ht'
  subst ht'
  refine ⟨?_, ?_, ?_⟩
  · intro md hmd
    exact le_of_lt (hpos.1 md hmd)
  · intro mm hmm
    exact le_of_lt (hpos.2.1 mm hmm)
  · intro mc hmc cu hcu
    have h0 : 0 = cu := by
      simpa [errorBenchmark, Option.mem_def] using hcu
    rw [← h0]
    exact le_of_lt (hpos.2.2 mc hmc)

/-- C8: an iteration whose operation throws counts as a *passed* iteration
whenever the configured thresholds obey the positivity invariant, because
the degraded benchmark carries the thresholds together with all-zero
metrics; hence a test whose every iteration threw still reports
`passed = true` with zero failed iterations. -/
theorem claim_C8_all_errors_pass (s : Sampler) (c : Nat → Nat)
    (cfg : PerformanceTestConfig) (t : PerformanceThresholds)
    (ht : cfg.thresholds = some t) (hpos : ThresholdsPositive t)
    (hall : ∀ i < cfg.iterations.getD 1, ∃ msg, s i = Except.error msg) :
    (∀ b ∈ (runTest s c cfg).benchmarks,
      TestRunner.isWithinThresholds b = true) ∧
    (runTest s c cfg).summary.failedIterations = 0 ∧
    (runTest s c cfg).passed = true := by
  have hbm : ∀ b ∈ (runTest s c cfg).benchmarks,
      TestRunner.isWithinThresholds b = true := by
    rw [runTest_benchmarks]
    intro b hb
    rw [List.mem_map] at hb
    obtain ⟨i, hi, rfl⟩ := hb
    rw [List.mem_range] at hi
    obtain ⟨msg, hmsg⟩ := hall i hi
    have hstep : (runIteration s c cfg (cfg.iterations.getD 1) i).1 =
        errorBenchmark cfg (cfg.iterations.getD 1) i (c i) msg := by
      simp [runIteration, hmsg]
    rw [hstep]
    exact errorBenchmark_withinThresholds cfg t _ i (c i) msg ht hpos
  have hfail : (runTest s c cfg).summary.failedIterations = 0 := by
    rw [runTest_failedIterations]
    have heq : ((runTest s c cfg).benchmarks.filter
        (fun b => TestRunner.isWithinThresholds b)) =
        (runTest s c cfg).benchmarks :=
      List.filter_eq_self.mpr (fun b hb => hbm b hb)
    rw [heq, Nat.sub_self]
  refine ⟨hbm, hfail, ?_⟩
  rw [runTest_passed_eq, hfail]
  simp

/-- Witness for C8: two iterations, both throwing, under positive
thresholds; the test passes. -/
theorem claim_C8_all_errors_pass_witness :
    (runTest (fun _ => Except.error "boom") (fun _ => 7)
      ⟨"t", some 2, some ⟨some 100, some 1000, some 50⟩, true, true⟩).passed
      = true :=
  (claim_C8_all_errors_pass (fun _ => Except.error "boom") (fun _ => 7)
    ⟨"t", some 2, some ⟨some 100, some 1000, some 50⟩, true, true⟩
    ⟨some 100, some 1000, some 50⟩ rfl
    (by
      refine ⟨fun x hx => ?_, fun x hx => ?_, fun x hx => ?_⟩ <;>
        (rw [Option.mem_def, Option.some_inj] at hx; rw [← hx]; norm_num))
    (fun i _ => ⟨"boom", rfl⟩)).2.2

/-- The analyses list computed by `analyzeRegression`, as a `filterMap`. -/
theorem analyzeRegression_analyses (cfg : RegressionDetectorConfig)
    (now : Nat) (hist : List HistoricalData)
    (currents : List PerformanceBenchmark) :
    (analyzeRegression cfg now hist currents).analyses =
      currents.filterMap (fun cb =>
        if (getHistoricalBenchmarks hist cb.name).length < cfg.minSamples
        then none
        else some (performRegressionAnalysis cfg.thresholds cb
          (getHistoricalBenchmarks hist cb.name))) := rfl

/-- Field `totalBenchmarks` is the length of the analyses list. -/
theorem analyzeRegression_totalBenchmarks (cfg : RegressionDetectorConfig)
    (now : Nat) (hist : List HistoricalData)
    (currents : List PerformanceBenchmark) :
    (analyzeRegression cfg now hist currents).totalBenchmarks =
      (analyzeRegression cfg now hist currents).analyses.length := rfl

/-- An analysis entry is named after the current benchmark it analyzes. -/
theorem performRegressionAnalysis_name (th : RegressionThresholds)
    (cur : PerformanceBenchmark) (hist : List PerformanceBenchmark) :
    (performRegressionAnalysis th cur hist).benchmarkName = cur.name := rfl

/-- Length of a `filterMap` whose function drops exactly the elements
satisfying `p`. -/
theorem length_filterMap_ite {α β : Type _} (l : List α) (p : α → Prop)
    [DecidablePred p] (g : α → β) :
    (l.filterMap (fun a => if p a then none else some (g a))).length =
      (l.filter (fun a => !decide (p a))).length := by
  induction l with
  | nil => rfl
  | cons x xs ih => by_cases hx : p x <;> simp [hx, ih]

/-- C6: a benchmark name with fewer matching historical samples than
`minSamples` is skipped entirely: no analysis entry carries that name, and
`totalBenchmarks` counts exactly the current benchmarks whose history is
sufficient. -/
theorem claim_C6_insufficient_history_skipped
    (cfg : RegressionDetectorConfig) (now : Nat)
    (hist : List HistoricalData) (currents : List PerformanceBenchmark)
    (name : String)
    (hlt : (getHistoricalBenchmarks hist name).length < cfg.minSamples) :
    (∀ a ∈ (analyzeRegression cfg now hist currents).analyses,
      a.benchmarkName ≠ name) ∧
    (analyzeRegression cfg now hist currents).totalBenchmarks =
      (currents.filter (fun b => decide (cfg.minSamples ≤
        (getHistoricalBenchmarks hist b.name).length))).length := by
  constructor
  · intro a ha heq
    rw [analyzeRegression_analyses, List.mem_filterMap] at ha
    obtain ⟨cb, _, hfc⟩ := ha
    by_cases hc :
        (getHistoricalBenchmarks hist cb.name).length < cfg.minSamples
    · rw [if_pos hc] at hfc
      cases hfc
    · rw [if_neg hc] at hfc
      rw [Option.some_inj] at hfc
      have hname : cb.name = name := by
        rw [← heq, ← hfc, performRegressionAnalysis_name]
      rw [hname] at hc
      exact hc hlt
  · rw [analyzeRegression_totalBenchmarks, analyzeRegression_analyses,
      length_filterMap_ite]
    congr 1
    apply List.filter_congr
    intro b _
    rw [← decide_not, decide_eq_decide]
    omega

/-- Witness for C6: only 2 historical samples of "op" against the default
minimum of 3, so "op" contributes no analysis entry. -/
theorem claim_C6_insufficient_history_skipped_witness :
    (analyzeRegression defaultRegressionConfig 0
        [wRecord 1 [wBench "op" 1], wRecord 2 [wBench "op" 2]]
        [wBench "op" 3]).totalBenchmarks =
      ([wBench "op" 3].filter (fun b => decide
        (defaultRegressionConfig.minSamples ≤ (getHistoricalBenchmarks
          [wRecord 1 [wBench "op" 1], wRecord 2 [wBench "op" 2]]
          b.name).length))).length :=
  (claim_C6_insufficient_history_skipped defaultRegressionConfig 0
    [wRecord 1 [wBench "op" 1], wRecord 2 [wBench "op" 2]]
    [wBench "op" 3] "op" (by decide)).2

/-- Inserting an element at least as new as everything in the list puts it
in front. -/
theorem insertDesc_of_ge (x : Nat × HistoricalData) (l : HistoryStore)
    (h : ∀ p ∈ l, p.1 ≤ x.1) : insertDesc x l = x :: l := by
  cases l with
  | nil => rfl
  | cons y ys =>
      unfold insertDesc
      rw [if_pos]
      exact h y (List.mem_cons_self y ys)

/-- Sorting an already newest-first list is the identity. -/
theorem sortByTimestampDesc_of_sorted (l : HistoryStore) (h : SortedDesc l) :
    sortByTimestampDesc l = l := by
  induction l with
  | nil => rfl
  | cons x xs ih =>
      unfold sortByTimestampDesc
      rw [ih (List.pairwise_cons.mp h).2, insertDesc_of_ge]
      exact (List.pairwise_cons.mp h).1

/-- Truncating the tail of an append before or after appending is the
same. -/
theorem take_append_take {α : Type _} (A B : List α) (n : Nat) :
    (A ++ B.take n).take n = (A ++ B).take n := by
  rw [List.take_append_eq_append_take, List.take_append_eq_append_take,
    List.take_take, Nat.min_eq_left (Nat.sub_le n A.length)]

/-- One `storeHistoricalData` call on a newest-first store prepends the new
record and truncates to the budget. -/
theorem storeHistoricalData_sorted_step (cfg : RegressionDetectorConfig)
    (now : Nat) (ch : Option String) (rep : PerformanceReport)
    (store : HistoryStore) (hs : SortedDesc store)
    (hle : ∀ p ∈ store, p.1 ≤ now) :
    storeHistoricalData cfg now ch rep store =
      ((now, mkHistoricalData now ch rep) :: store).take
        cfg.maxHistoryCount := by
  unfold storeHistoricalData cleanupOldData
  split
  · rw [sortByTimestampDesc_of_sorted]
    exact List.Pairwise.cons hle hs
  · next h => exact (List.take_of_length_le (by omega)).symm

/-- Recording runs with strictly increasing timestamps into a bounded,
newest-first store keeps exactly the newest `maxHistoryCount` records. -/
theorem storeRuns_eq (cfg : RegressionDetectorConfig)
    (runs : List RunInput) :
    ∀ store, SortedDesc store → store.length ≤ cfg.maxHistoryCount →
      (∀ p ∈ store, ∀ r ∈ runs, p.1 ≤ r.1) →
      (runs.map (fun r => r.1)).Pairwise (· < ·) →
      storeRuns cfg runs store =
        ((runs.map recordOf).reverse ++ store).take cfg.maxHistoryCount := by
  induction runs with
  | nil =>
      intro store _ hlen _ _
      simpa [storeRuns] using (List.take_of_length_le hlen).symm
  | cons r rs ih =>
      intro store hs hlen hbound hpair
      have hstep : storeHistoricalData cfg r.1 r.2.1 r.2.2 store =
          (recordOf r :: store).take cfg.maxHistoryCount :=
        storeHistoricalData_sorted_step cfg r.1 r.2.1 r.2.2 store hs
          (fun p hp => hbound p hp r (List.mem_cons_self r rs))
      have hs' : SortedDesc ((recordOf r :: store).take cfg.maxHistoryCount) :=
        List.Pairwise.sublist (List.take_sublist _ _)
          (List.Pairwise.cons
            (fun p hp => hbound p hp r (List.mem_cons_self r rs)) hs)
      have hlen' :
          ((recordOf r :: store).take cfg.maxHistoryCount).length ≤
            cfg.maxHistoryCount := by
        simp [List.length_take]
      have hbound' : ∀ p ∈ (recordOf r :: store).take cfg.maxHistoryCount,
          ∀ r' ∈ rs, p.1 ≤ r'.1 := by
        intro p hp r' hr'
        have hp' : p ∈ recordOf r :: store := List.take_subset _ _ hp
        rcases List.mem_cons.mp hp' with h | h
        · have hlt : r.1 < r'.1 :=
            (List.pairwise_cons.mp hpair).1 r'.1
              (List.mem_map_of_mem _ hr')
          rw [h]
          exact le_of_lt hlt
        · exact hbound p h r' (List.mem_cons_of_mem _ hr')
      have hpair' : (rs.map (fun r => r.1)).Pairwise (· < ·) :=
        (List.pairwise_cons.mp hpair).2
      have hfold : storeRuns cfg (r :: rs) store =
          storeRuns cfg rs (storeHistoricalData cfg r.1 r.2.1 r.2.2 store) :=
        rfl
      rw [hfold, hstep, ih _ hs' hlen' hbound' hpair', take_append_take]
      simp [List.append_assoc]

/-- C5: (a) after every completed `storeHistoricalData` call the store holds
at most `maxHistoryCount` records; (b) recording `maxHistoryCount + 5` runs
one at a time (timestamps increasing) into an empty store leaves exactly the
`maxHistoryCount` most recent records, newest first. -/
theorem claim_C5_history_bounded (cfg : RegressionDetectorConfig) :
    (∀ (now : Nat) (ch : Option String) (rep : PerformanceReport)
      (store : HistoryStore),
      (storeHistoricalData cfg now ch rep store).length ≤
        cfg.maxHistoryCount) ∧
    (∀ runs : List RunInput,
      (runs.map (fun r => r.1)).Pairwise (· < ·) →
      runs.length = cfg.maxHistoryCount + 5 →
      storeRuns cfg runs [] =
        ((runs.map recordOf).reverse).take cfg.maxHistoryCount ∧
      (storeRuns cfg runs []).length = cfg.maxHistoryCount) := by
  constructor
  · intro now ch rep store
    unfold storeHistoricalData cleanupOldData
    split
    · simp [List.length_take]
    · next h => omega
  · intro runs hpair hlen
    have h := storeRuns_eq cfg runs [] List.Pairwise.nil (by simp)
      (by simp) hpair
    rw [List.append_nil] at h
    refine ⟨h, ?_⟩
    rw [h]
    simp only [List.length_take, List.length_reverse, List.length_map, hlen]
    omega

/-- Witness for C5: seven runs into a budget of two leave exactly the two
most recent records. -/
theorem claim_C5_history_bounded_witness :
    storeRuns wCfg5 (List.map (fun t => (t, none, wReport))
        [0, 1, 2, 3, 4, 5, 6]) [] =
      ((List.map (fun t => (t, (none : Option String), wReport))
        [0, 1, 2, 3, 4, 5, 6]).map recordOf).reverse.take 2 ∧
    (storeRuns wCfg5 (List.map (fun t => (t, none, wReport))
        [0, 1, 2, 3, 4, 5, 6]) []).length = 2 :=
  (claim_C5_history_bounded wCfg5).2
    (List.map (fun t => (t, none, wReport)) [0, 1, 2, 3, 4, 5, 6])
    (by decide) (by decide)

/-- The rank of the worse severity is the larger rank. -/
theorem specSeverityMax_rank (a b : Severity) :
    (specSeverityMax a b).rank = max a.rank b.rank := by
  unfold specSeverityMax
  split
  · exact (Nat.max_eq_left (by assumption)).symm
  · exact (Nat.max_eq_right (le_of_not_le (by assumption))).symm

/-- Severity ranks live in `0..4`. -/
theorem rank_le_four (s : Severity) : s.rank ≤ 4 := by
  cases s <;> simp [Severity.rank]

/-- Function `Severity.rank` is injective. -/
theorem rank_inj (s t : Severity) (h : s.rank = t.rank) : s = t := by
  cases s <;> cases t <;> simp_all [Severity.rank]

/-- The `≥ tier` characterizations of `specTier`. -/
theorem specTier_rank_ge (t : TierThresholds) (x : ℚ) :
    (4 ≤ (specTier t x).rank ↔ x ≥ t.critical) ∧
    (3 ≤ (specTier t x).rank ↔ (x ≥ t.critical ∨ x ≥ t.major)) ∧
    (2 ≤ (specTier t x).rank ↔
      (x ≥ t.critical ∨ x ≥ t.major ∨ x ≥ t.moderate)) ∧
    (1 ≤ (specTier t x).rank ↔
      (x ≥ t.critical ∨ x ≥ t.major ∨ x ≥ t.moderate ∨ x ≥ t.minor)) := by
  unfold specTier
  split_ifs <;> simp_all [Severity.rank]

/-- The `≥ tier` characterizations of the CPU dimension. -/
theorem specCpuTier_rank_ge (th : RegressionThresholds) (c : Option ℚ) :
    (4 ≤ (specCpuTier th c).rank ↔ cpuAtLeast c th.cpu.critical = true) ∧
    (3 ≤ (specCpuTier th c).rank ↔
      (cpuAtLeast c th.cpu.critical = true ∨
       cpuAtLeast c th.cpu.major = true)) ∧
    (2 ≤ (specCpuTier th c).rank ↔
      (cpuAtLeast c th.cpu.critical = true ∨
       cpuAtLeast c th.cpu.major = true ∨
       cpuAtLeast c th.cpu.moderate = true)) ∧
    (1 ≤ (specCpuTier th c).rank ↔
      (cpuAtLeast c th.cpu.critical = true ∨
       cpuAtLeast c th.cpu.major = true ∨
       cpuAtLeast c th.cpu.moderate = true ∨
       cpuAtLeast c th.cpu.minor = true)) := by
  cases c with
  | none => simp [specCpuTier, cpuAtLeast, Severity.rank]
  | some cv =>
      simpa [specCpuTier, cpuAtLeast, decide_eq_true_eq] using
        specTier_rank_ge th.cpu cv

/-- The `≥ tier` characterizations of the source's cascade. -/
theorem calculateSeverity_rank_ge (th : RegressionThresholds) (d m : ℚ)
    (c : Option ℚ) :
    (4 ≤ (calculateSeverity th d m c).rank ↔
      (maxRegression d m c ≥ th.duration.critical ∨
       m ≥ th.memory.critical ∨ cpuAtLeast c th.cpu.critical = true)) ∧
    (3 ≤ (calculateSeverity th d m c).rank ↔
      ((maxRegression d m c ≥ th.duration.critical ∨
        m ≥ th.memory.critical ∨ cpuAtLeast c th.cpu.critical = true) ∨
       (maxRegression d m c ≥ th.duration.major ∨
        m ≥ th.memory.major ∨ cpuAtLeast c th.cpu.major = true))) ∧
    (2 ≤ (calculateSeverity th d m c).rank ↔
      ((maxRegression d m c ≥ th.duration.critical ∨
        m ≥ th.memory.critical ∨ cpuAtLeast c th.cpu.critical = true) ∨
       (maxRegression d m c ≥ th.duration.major ∨
        m ≥ th.memory.major ∨ cpuAtLeast c th.cpu.major = true) ∨
       (maxRegression d m c ≥ th.duration.moderate ∨
        m ≥ th.memory.moderate ∨ cpuAtLeast c th.cpu.moderate = true))) ∧
    (1 ≤ (calculateSeverity th d m c).rank ↔
      ((maxRegression d m c ≥ th.duration.critical ∨
        m ≥ th.memory.critical ∨ cpuAtLeast c th.cpu.critical = true) ∨
       (maxRegression d m c ≥ th.duration.major ∨
        m ≥ th.memory.major ∨ cpuAtLeast c th.cpu.major = true) ∨
       (maxRegression d m c ≥ th.duration.moderate ∨
        m ≥ th.memory.moderate ∨ cpuAtLeast c th.cpu.moderate = true) ∨
       (maxRegression d m c ≥ th.duration.minor ∨
        m ≥ th.memory.minor ∨ cpuAtLeast c th.cpu.minor = true))) := by
  unfold calculateSeverity
  split_ifs <;> simp_all [Severity.rank]

/-- Regrouping a two-level disjunction by dimension. -/
theorem or_regroup3 {A4 A3 B4 B3 P4 P3 : Prop} :
    ((A4 ∨ B4 ∨ P4) ∨ (A3 ∨ B3 ∨ P3)) ↔
      ((A4 ∨ A3) ∨ (B4 ∨ B3) ∨ (P4 ∨ P3)) := by
  constructor
  · rintro ((a | b | p) | (a | b | p))
    · exact Or.inl (Or.inl a)
    · exact Or.inr (Or.inl (Or.inl b))
    · exact Or.inr (Or.inr (Or.inl p))
    · exact Or.inl (Or.inr a)
    · exact Or.inr (Or.inl (Or.inr b))
    · exact Or.inr (Or.inr (Or.inr p))
  · rintro ((a | a) | (b | b) | (p | p))
    · exact Or.inl (Or.inl a)
    · exact Or.inr (Or.inl a)
    · exact Or.inl (Or.inr (Or.inl b))
    · exact Or.inr (Or.inr (Or.inl b))
    · exact Or.inl (Or.inr (Or.inr p))
    · exact Or.inr (Or.inr (Or.inr p))

/-- Regrouping a three-level disjunction by dimension. -/
theorem or_regroup2 {A4 A3 A2 B4 B3 B2 P4 P3 P2 : Prop} :
    ((A4 ∨ B4 ∨ P4) ∨ (A3 ∨ B3 ∨ P3) ∨ (A2 ∨ B2 ∨ P2)) ↔
      ((A4 ∨ A3 ∨ A2) ∨ (B4 ∨ B3 ∨ B2) ∨ (P4 ∨ P3 ∨ P2)) := by
  constructor
  · rintro ((a | b | p) | (a | b | p) | (a | b | p))
    · exact Or.inl (Or.inl a)
    · exact Or.inr (Or.inl (Or.inl b))
    · exact Or.inr (Or.inr (Or.inl p))
    · exact Or.inl (Or.inr (Or.inl a))
    · exact Or.inr (Or.inl (Or.inr (Or.inl b)))
    · exact Or.inr (Or.inr (Or.inr (Or.inl p)))
    · exact Or.inl (Or.inr (Or.inr a))
    · exact Or.inr (Or.inl (Or.inr (Or.inr b)))
    · exact Or.inr (Or.inr (Or.inr (Or.inr p)))
  · rintro ((a | a | a) | (b | b | b) | (p | p | p))
    · exact Or.inl (Or.inl a)
    · exact Or.inr (Or.inl (Or.inl a))
    · exact Or.inr (Or.inr (Or.inl a))
    · exact Or.inl (Or.inr (Or.inl b))
    · exact Or.inr (Or.inl (Or.inr (Or.inl b)))
    · exact Or.inr (Or.inr (Or.inr (Or.inl b)))
    · exact Or.inl (Or.inr (Or.inr p))
    · exact Or.inr (Or.inl (Or.inr (Or.inr p)))
    · exact Or.inr (Or.inr (Or.inr (Or.inr p)))

/-- Regrouping a four-level disjunction by dimension. -/
theorem or_regroup1 {A4 A3 A2 A1 B4 B3 B2 B1 P4 P3 P2 P1 : Prop} :
    ((A4 ∨ B4 ∨ P4) ∨ (A3 ∨ B3 ∨ P3) ∨ (A2 ∨ B2 ∨ P2) ∨ (A1 ∨ B1 ∨ P1)) ↔
      ((A4 ∨ A3 ∨ A2 ∨ A1) ∨ (B4 ∨ B3 ∨ B2 ∨ B1) ∨
        (P4 ∨ P3 ∨ P2 ∨ P1)) := by
  constructor
  · rintro ((a | b | p) | (a | b | p) | (a | b | p) | (a | b | p))
    · exact Or.inl (Or.inl a)
    · exact Or.inr (Or.inl (Or.inl b))
    · exact Or.inr (Or.inr (Or.inl p))
    · exact Or.inl (Or.inr (Or.inl a))
    · exact Or.inr (Or.inl (Or.inr (Or.inl b)))
    · exact Or.inr (Or.inr (Or.inr (Or.inl p)))
    · exact Or.inl (Or.inr (Or.inr (Or.inl a)))
    · exact Or.inr (Or.inl (Or.inr (Or.inr (Or.inl b))))
    · exact Or.inr (Or.inr (Or.inr (Or.inr (Or.inl p))))
    · exact Or.inl (Or.inr (Or.inr (Or.inr a)))
    · exact Or.inr (Or.inl (Or.inr (Or.inr (Or.inr b))))
    · exact Or.inr (Or.inr (Or.inr (Or.inr (Or.inr p))))
  · rintro ((a | a | a | a) | (b | b | b | b) | (p | p | p | p))
    · exact Or.inl (Or.inl a)
    · exact Or.inr (Or.inl (Or.inl a))
    · exact Or.inr (Or.inr (Or.inl (Or.inl a)))
    · exact Or.inr (Or.inr (Or.inr (Or.inl a)))
    · exact Or.inl (Or.inr (Or.inl b))
    · exact Or.inr (Or.inl (Or.inr (Or.inl b)))
    · exact Or.inr (Or.inr (Or.inl (Or.inr (Or.inl b))))
    · exact Or.inr (Or.inr (Or.inr (Or.inr (Or.inl b))))
    · exact Or.inl (Or.inr (Or.inr p))
    · exact Or.inr (Or.inl (Or.inr (Or.inr p)))
    · exact Or.inr (Or.inr (Or.inl (Or.inr (Or.inr p))))
    · exact Or.inr (Or.inr (Or.inr (Or.inr (Or.inr p))))

/-- Two ranks in `0..4` agreeing on every tier cutoff are equal. -/
theorem cascade_glue (x y : Nat)
    (A4 A3 A2 A1 B4 B3 B2 B1 P4 P3 P2 P1 : Prop)
    (hx : x ≤ 4) (hy : y ≤ 4)
    (l4 : 4 ≤ x ↔ (A4 ∨ B4 ∨ P4))
    (l3 : 3 ≤ x ↔ ((A4 ∨ B4 ∨ P4) ∨ (A3 ∨ B3 ∨ P3)))
    (l2 : 2 ≤ x ↔ ((A4 ∨ B4 ∨ P4) ∨ (A3 ∨ B3 ∨ P3) ∨ (A2 ∨ B2 ∨ P2)))
    (l1 : 1 ≤ x ↔
      ((A4 ∨ B4 ∨ P4) ∨ (A3 ∨ B3 ∨ P3) ∨ (A2 ∨ B2 ∨ P2) ∨ (A1 ∨ B1 ∨ P1)))
    (r4 : 4 ≤ y ↔ (A4 ∨ B4 ∨ P4))
    (r3 : 3 ≤ y ↔ ((A4 ∨ A3) ∨ (B4 ∨ B3) ∨ (P4 ∨ P3)))
    (r2 : 2 ≤ y ↔ ((A4 ∨ A3 ∨ A2) ∨ (B4 ∨ B3 ∨ B2) ∨ (P4 ∨ P3 ∨ P2)))
    (r1 : 1 ≤ y ↔
      ((A4 ∨ A3 ∨ A2 ∨ A1) ∨ (B4 ∨ B3 ∨ B2 ∨ B1) ∨ (P4 ∨ P3 ∨ P2 ∨ P1))) :
    x = y := by
  have e4 : (4 ≤ x ↔ 4 ≤ y) := by rw [l4, r4]
  have e3 : (3 ≤ x ↔ 3 ≤ y) := by rw [l3, r3]; exact or_regroup3
  have e2 : (2 ≤ x ↔ 2 ≤ y) := by rw [l2, r2]; exact or_regroup2
  have e1 : (1 ≤ x ↔ 1 ≤ y) := by rw [l1, r1]; exact or_regroup1
  omega

/-- C1 (counterexample): a memory-only regression of 7% -- below every
memory tier (minor is 10%) -- is nevertheless classified `minor`, because
`calculateSeverity` compares the maximum regression across dimensions
against the *duration* table (minor 5%).  Independent per-dimension
classification would yield `none`. -/
theorem claim_C1_counterexample :
    calculateSeverity defaultRegressionConfig.thresholds 0 7 none =
      Severity.minor ∧
    calculateSeveritySpec defaultRegressionConfig.thresholds 0 7 none =
      Severity.none ∧
    Severity.minor ≠ Severity.none := by
  refine ⟨?_, ?_, by simp⟩
  · norm_num [calculateSeverity, maxRegression, cpuAtLeast,
      defaultRegressionConfig]
  · norm_num [calculateSeveritySpec, specTier, specSeverityMax, specCpuTier,
      defaultRegressionConfig, Severity.rank]

/-- C1 (amended): `calculateSeverity` equals the spec's
worst-tier-of-independent-tables classification *except* that the duration
table is applied to the maximum regression percentage across all dimensions
rather than to the duration percentage alone; the memory and CPU
percentages are additionally checked against their own tables. -/
theorem claim_C1_amended_severity (th : RegressionThresholds) (d m : ℚ)
    (c : Option ℚ) :
    calculateSeverity th d m c =
      calculateSeveritySpec th (maxRegression d m c) m c := by
  apply rank_inj
  obtain ⟨l4, l3, l2, l1⟩ := calculateSeverity_rank_ge th d m c
  obtain ⟨d4, d3, d2, d1⟩ := specTier_rank_ge th.duration (maxRegression d m c)
  obtain ⟨m4, m3, m2, m1⟩ := specTier_rank_ge th.memory m
  obtain ⟨c4, c3, c2, c1⟩ := specCpuTier_rank_ge th c
  have hR : (calculateSeveritySpec th (maxRegression d m c) m c).rank =
      max (specTier th.duration (maxRegression d m c)).rank
        (max (specTier th.memory m).rank (specCpuTier th c).rank) := by
    unfold calculateSeveritySpec
    rw [specSeverityMax_rank, specSeverityMax_rank]
  have r4 : 4 ≤ (calculateSeveritySpec th (maxRegression d m c) m c).rank ↔
      (maxRegression d m c ≥ th.duration.critical ∨
       m ≥ th.memory.critical ∨ cpuAtLeast c th.cpu.critical = true) := by
    rw [hR, le_max_iff, le_max_iff, d4, m4, c4]
  have r3 : 3 ≤ (calculateSeveritySpec th (maxRegression d m c) m c).rank ↔
      ((maxRegression d m c ≥ th.duration.critical ∨
        maxRegression d m c ≥ th.duration.major) ∨
       (m ≥ th.memory.critical ∨ m ≥ th.memory.major) ∨
       (cpuAtLeast c th.cpu.critical = true ∨
        cpuAtLeast c th.cpu.major = true)) := by
    rw [hR, le_max_iff, le_max_iff, d3, m3, c3]
  have r2 : 2 ≤ (calculateSeveritySpec th (maxRegression d m c) m c).rank ↔
      ((maxRegression d m c ≥ th.duration.critical ∨
        maxRegression d m c ≥ th.duration.major ∨
        maxRegression d m c ≥ th.duration.moderate) ∨
       (m ≥ th.memory.critical ∨ m ≥ th.memory.major ∨
        m ≥ th.memory.moderate) ∨
       (cpuAtLeast c th.cpu.critical = true ∨
        cpuAtLeast c th.cpu.major = true ∨
        cpuAtLeast c th.cpu.moderate = true)) := by
    rw [hR, le_max_iff, le_max_iff, d2, m2, c2]
  have r1 : 1 ≤ (calculateSeveritySpec th (maxRegression d m c) m c).rank ↔
      ((maxRegression d m c ≥ th.duration.critical ∨
        maxRegression d m c ≥ th.duration.major ∨
        maxRegression d m c ≥ th.duration.moderate ∨
        maxRegression d m c ≥ th.duration.minor) ∨
       (m ≥ th.memory.critical ∨ m ≥ th.memory.major ∨
        m ≥ th.memory.moderate ∨ m ≥ th.memory.minor) ∨
       (cpuAtLeast c th.cpu.critical = true ∨
        cpuAtLeast c th.cpu.major = true ∨
        cpuAtLeast c th.cpu.moderate = true ∨
        cpuAtLeast c th.cpu.minor = true)) := by
    rw [hR, le_max_iff, le_max_iff, d1, m1, c1]
  exact cascade_glue (calculateSeverity th d m c).rank
    (calculateSeveritySpec th (maxRegression d m c) m c).rank
    (maxRegression d m c ≥ th.duration.critical)
    (maxRegression d m c ≥ th.duration.major)
    (maxRegression d m c ≥ th.duration.moderate)
    (maxRegression d m c ≥ th.duration.minor)
    (m ≥ th.memory.critical) (m ≥ th.memory.major)
    (m ≥ th.memory.moderate) (m ≥ th.memory.minor)
    (cpuAtLeast c th.cpu.critical = true)
    (cpuAtLeast c th.cpu.major = true)
    (cpuAtLeast c th.cpu.moderate = true)
    (cpuAtLeast c th.cpu.minor = true)
    (rank_le_four _) (rank_le_four _) l4 l3 l2 l1 r4 r3 r2 r1

/-- C2 (counterexample): with a 100ms baseline (three historical samples)
and a 160ms current duration, `durationRegression` is indeed 60, but the
severity is `critical` (60 ≥ the 50% critical cutoff), not `major` as the
claim states. -/
theorem claim_C2_counterexample :
    (performRegressionAnalysis defaultRegressionConfig.thresholds
        (wBench "op" 160)
        [wBench "op" 100, wBench "op" 100, wBench "op" 100]
      ).regression.severity ≠ Severity.major := by
  norm_num [performRegressionAnalysis, calculateAverage, wBench,
    calculateSeverity, maxRegression, cpuAtLeast, defaultRegressionConfig]
  decide

/-- C2 (amended): baseline mean 100ms, current 160ms, memory and CPU at
their baselines: `durationRegression = 60` and the severity is `critical`
under the default thresholds (60 ≥ 50). -/
theorem claim_C2_duration_regression_60 :
    (performRegressionAnalysis defaultRegressionConfig.thresholds
        (wBench "op" 160)
        [wBench "op" 100, wBench "op" 100, wBench "op" 100]
      ).regression.durationRegression = 60 ∧
    (performRegressionAnalysis defaultRegressionConfig.thresholds
        (wBench "op" 160)
        [wBench "op" 100, wBench "op" 100, wBench "op" 100]
      ).regression.severity = Severity.critical := by
  constructor
  · norm_num [performRegressionAnalysis, calculateAverage, wBench]
  · norm_num [performRegressionAnalysis, calculateAverage, wBench,
      calculateSeverity, maxRegression, cpuAtLeast, defaultRegressionConfig]

/-- C7 (counterexample): when the baseline mean memory delta is zero (three
samples 5, −5, 0) and the current delta is 5, the source divides by
`Math.abs(0 || 1) = 1` and reports 500%, whereas the claim's formula divides
by `|0|` (yielding `0` under the rational convention `x / 0 = 0`, and
`Infinity` in JS — in neither reading 500). -/
theorem claim_C7_counterexample :
    (performRegressionAnalysis defaultRegressionConfig.thresholds
        (wBenchM "op" 100 5)
        [wBenchM "op" 100 5, wBenchM "op" 100 (-5), wBenchM "op" 100 0]
      ).regression.memoryRegression = 500 ∧
    ¬ (((5 : ℚ) - 0) / |(0 : ℚ)| * 100 = 500) := by
  constructor
  · norm_num [performRegressionAnalysis, calculateAverage, wBenchM]
  · norm_num

/-- C7 (amended): the duration regression is
`(current − baseline) / baseline × 100`; the memory regression divides by
the absolute value of the baseline mean memory delta when that mean is
non-zero (negative baselines included), but by `1` when the mean is exactly
zero. -/
theorem claim_C7_amended_formulas (th : RegressionThresholds)
    (cur : PerformanceBenchmark) (hist : List PerformanceBenchmark) :
    ((performRegressionAnalysis th cur hist).regression.durationRegression =
      ((cur.metrics.duration -
        calculateAverage (hist.map (fun b => b.metrics.duration))) /
        calculateAverage (hist.map (fun b => b.metrics.duration))) * 100) ∧
    (calculateAverage (hist.map (fun b => b.metrics.memoryDelta)) ≠ 0 →
      (performRegressionAnalysis th cur hist).regression.memoryRegression =
        ((cur.metrics.memoryDelta -
          calculateAverage (hist.map (fun b => b.metrics.memoryDelta))) /
          |calculateAverage (hist.map (fun b => b.metrics.memoryDelta))|) *
          100) ∧
    (calculateAverage (hist.map (fun b => b.metrics.memoryDelta)) = 0 →
      (performRegressionAnalysis th cur hist).regression.memoryRegression =
        (cur.metrics.memoryDelta -
          calculateAverage (hist.map (fun b => b.metrics.memoryDelta))) *
          100) := by
  refine ⟨rfl, ?_, ?_⟩
  · intro h
    simp [performRegressionAnalysis, if_neg h]
  · intro h
    simp [performRegressionAnalysis, h]

/-- Witness for C7 at a non-zero (mean 2) and a zero (mean 0) memory
baseline. -/
theorem claim_C7_amended_formulas_witness :
    ((performRegressionAnalysis defaultRegressionConfig.thresholds
        (wBenchM "op" 100 5) [wBenchM "op" 100 2]
      ).regression.memoryRegression =
      (((wBenchM "op" 100 5).metrics.memoryDelta -
        calculateAverage ([wBenchM "op" 100 2].map
          (fun b => b.metrics.memoryDelta))) /
        |calculateAverage ([wBenchM "op" 100 2].map
          (fun b => b.metrics.memoryDelta))|) * 100) ∧
    ((performRegressionAnalysis defaultRegressionConfig.thresholds
        (wBenchM "op" 100 5) [wBenchM "op" 100 0]
      ).regression.memoryRegression =
      ((wBenchM "op" 100 5).metrics.memoryDelta -
        calculateAverage ([wBenchM "op" 100 0].map
          (fun b => b.metrics.memoryDelta))) * 100) := by
  constructor
  · exact (claim_C7_amended_formulas defaultRegressionConfig.thresholds
      (wBenchM "op" 100 5) [wBenchM "op" 100 2]).2.1
      (by norm_num [calculateAverage, wBenchM])
  · exact (claim_C7_amended_formulas defaultRegressionConfig.thresholds
      (wBenchM "op" 100 5) [wBenchM "op" 100 0]).2.2
      (by norm_num [calculateAverage, wBenchM])

end ExtendVscode


